import Mathlib

/-!
Verification of the retail-analysis dashboard core (src/app.py) against its
natural-language specification.  Python floats are embedded as rationals,
null/NaN scalars as `Option`, RGBA tuples as `List ℤ`, and the pandas
filtering steps as explicit functions over an embedded `Dataset`.
-/

/-- Python `int()` truncates toward zero. -/
def pyInt (x : ℚ) : ℤ := if 0 ≤ x then Int.floor x else -(Int.floor (-x))

/-- The fixed categorical palette defined inside `get_retail_color`
(src/app.py lines 34-38): High ↦ red, Medium ↦ orange, Low ↦ green,
each with alpha 200. -/
def retailColorTable : List (String × List ℤ) :=
  [("High", [220, 38, 38, 200]),
   ("Medium", [245, 158, 11, 200]),
   ("Low", [16, 185, 129, 200])]

/-- Embeds `get_retail_color` (src/app.py lines 32-39): dictionary lookup
with gray default `[156, 163, 175, 150]`; a null (None/NaN) class is not a
dictionary key, so it also takes the default. -/
def get_retail_color (retail_class : Option String) : List ℤ :=
  match retail_class with
  | some c => (retailColorTable.lookup c).getD [156, 163, 175, 150]
  | none => [156, 163, 175, 150]

/-- Embeds the normalization in `get_color_scale` (src/app.py line 47):
`(value - vmin) / (vmax - vmin) if vmax > vmin else 0.5`. -/
def normalizeVal (v vmin vmax : ℚ) : ℚ :=
  if vmax > vmin then (v - vmin) / (vmax - vmin) else 1/2

/-- Embeds the clamp in `get_color_scale` (src/app.py line 48):
`max(0, min(1, normalized))`. -/
def clamp01 (x : ℚ) : ℚ := max 0 (min 1 x)

/-- Embeds the two-segment red-yellow-green ramp of `get_color_scale`
(src/app.py lines 51-60), producing the `[r, g, b]` triple. -/
def rampRGB (n : ℚ) : List ℤ :=
  if n < 1/2 then
    [255, pyInt (n * 2 * 255), 0]
  else
    [pyInt (255 - (n - 1/2) * 2 * 255), 255, 0]

/-- Embeds the alpha computation of `get_color_scale` (src/app.py line 62):
`int(150 + (normalized * 105))`. -/
def alphaOf (n : ℚ) : ℤ := pyInt (150 + n * 105)

/-- Embeds `get_color_scale` (src/app.py lines 41-63).  A null value takes
the gray sentinel short-circuit of lines 43-44; otherwise the value is
normalized, clamped, run through the ramp, and given an alpha. -/
def get_color_scale (value : Option ℚ) (vmin vmax : ℚ) : List ℤ :=
  match value with
  | none => [200, 200, 200, 100]
  | some v =>
    let n := clamp01 (normalizeVal v vmin vmax)
    rampRGB n ++ [alphaOf n]

/-- C1 as stated by the spec is false on the code: the palette alphas are
200 (not 160) and the default gray is `[156, 163, 175, 150]`
(not `[160, 160, 160, 120]`). -/
theorem c1_counterexample :
    get_retail_color (some "High") ≠ [220, 38, 38, 160] ∧
    get_retail_color none ≠ [160, 160, 160, 120] := by
  decide

/-- C1 (amended): the categorical colorizer maps High, Medium, Low and null
to exactly `[220,38,38,200]`, `[245,158,11,200]`, `[16,185,129,200]` and
`[156,163,175,150]` respectively. -/
theorem c1_retail_palette :
    get_retail_color (some "High") = [220, 38, 38, 200] ∧
    get_retail_color (some "Medium") = [245, 158, 11, 200] ∧
    get_retail_color (some "Low") = [16, 185, 129, 200] ∧
    get_retail_color none = [156, 163, 175, 150] := by
  decide


/-- The continuous colorizer exactly as the spec claim words it, with
`round` on the interpolated channels, for comparison with the code. -/
def colorByValueRounded (v vmin vmax : ℚ) : List ℤ :=
  if clamp01 (normalizeVal v vmin vmax) < 1/2 then
    [255, round (clamp01 (normalizeVal v vmin vmax) * 2 * 255), 0,
      alphaOf (clamp01 (normalizeVal v vmin vmax))]
  else
    [round (255 - (clamp01 (normalizeVal v vmin vmax) - 1/2) * 2 * 255), 255, 0,
      alphaOf (clamp01 (normalizeVal v vmin vmax))]

/-- The continuous colorizer as amended: Python `int()` truncation (floor on
these nonnegative channel values) instead of rounding. -/
def colorByValueTrunc (v vmin vmax : ℚ) : List ℤ :=
  if clamp01 (normalizeVal v vmin vmax) < 1/2 then
    [255, Int.floor (clamp01 (normalizeVal v vmin vmax) * 2 * 255), 0,
      alphaOf (clamp01 (normalizeVal v vmin vmax))]
  else
    [Int.floor (255 - (clamp01 (normalizeVal v vmin vmax) - 1/2) * 2 * 255), 255, 0,
      alphaOf (clamp01 (normalizeVal v vmin vmax))]

theorem pyInt_eq_floor {x : ℚ} (h : 0 ≤ x) : pyInt x = Int.floor x := if_pos h

theorem clamp01_nonneg (x : ℚ) : 0 ≤ clamp01 x := le_max_left 0 _

theorem clamp01_le_one (x : ℚ) : clamp01 x ≤ 1 :=
  max_le (by norm_num) (min_le_left 1 x)

theorem clamp01_mono {a b : ℚ} (h : a ≤ b) : clamp01 a ≤ clamp01 b :=
  max_le_max le_rfl (min_le_min le_rfl h)

theorem normalizeVal_mono {v1 v2 : ℚ} (vmin vmax : ℚ) (h : v1 ≤ v2) :
    normalizeVal v1 vmin vmax ≤ normalizeVal v2 vmin vmax := by
  unfold normalizeVal
  split
  · next hlt =>
      have hpos : 0 < vmax - vmin := sub_pos.mpr hlt
      exact (div_le_div_iff_of_pos_right hpos).mpr (by linarith)
  · exact le_rfl

/-- C3 as stated (with `round`) is false on the code: at value 1 with bounds
0 and 1000 the normalized value is 1/1000, the claimed green channel is
`round(0.51) = 1`, but the code truncates with `int()` and returns 0. -/
theorem c3_counterexample :
    get_color_scale (some 1) 0 1000 ≠ colorByValueRounded 1 0 1000 ∧
    get_color_scale (some 1) 0 1000 = [255, 0, 0, 150] ∧
    colorByValueRounded 1 0 1000 = [255, 1, 0, 150] := by
  have h1 : get_color_scale (some 1) 0 1000 = [255, 0, 0, 150] := by
    norm_num [get_color_scale, normalizeVal, clamp01, rampRGB, alphaOf, pyInt,
      min_def, max_def]
  have h2 : colorByValueRounded 1 0 1000 = [255, 1, 0, 150] := by
    norm_num [colorByValueRounded, normalizeVal, clamp01, alphaOf, pyInt,
      min_def, max_def, round_eq]
  exact ⟨by rw [h1, h2]; decide, h1, h2⟩

/-- C3 (amended): for bounds with min < max, the colorizer returns red 255,
green floor(n*2*255), blue 0 when the clamped normalized n is below 1/2, and
red floor(255-(n-1/2)*2*255), green 255, blue 0 otherwise — truncation
toward zero by Python int(), not rounding. -/
theorem c3_ramp_formula (v vmin vmax : ℚ) (h : vmin < vmax) :
    get_color_scale (some v) vmin vmax = colorByValueTrunc v vmin vmax := by
  have h0 := clamp01_nonneg (normalizeVal v vmin vmax)
  have h1 := clamp01_le_one (normalizeVal v vmin vmax)
  simp only [get_color_scale, colorByValueTrunc]
  generalize hg : clamp01 (normalizeVal v vmin vmax) = n at h0 h1 ⊢
  by_cases hlt : n < 1/2
  · rw [if_pos hlt]
    unfold rampRGB
    rw [if_pos hlt, pyInt_eq_floor (by nlinarith)]
    rfl
  · rw [if_neg hlt]
    unfold rampRGB
    rw [if_neg hlt, pyInt_eq_floor (by nlinarith)]
    rfl

theorem c3_ramp_formula_witness :
    (0 : ℚ) < 10 ∧ get_color_scale (some 2) 0 10 = colorByValueTrunc 2 0 10 :=
  ⟨by norm_num, c3_ramp_formula 2 0 10 (by norm_num)⟩

/-- C4: for degenerate bounds (vmax <= vmin, including vmin = vmax) and any
non-null value, the colorizer normalizes to exactly 1/2 without dividing by
zero (the guarded branch is taken) and returns the fixed midpoint color
[255, 255, 0, 202] regardless of the value. -/
theorem c4_degenerate_bounds (v vmin vmax : ℚ) (h : vmax ≤ vmin) :
    normalizeVal v vmin vmax = 1/2 ∧
    get_color_scale (some v) vmin vmax = [255, 255, 0, 202] := by
  have hn : normalizeVal v vmin vmax = 1/2 := if_neg (not_lt.mpr h)
  refine ⟨hn, ?_⟩
  simp only [get_color_scale, hn]
  norm_num [clamp01, rampRGB, alphaOf, pyInt, min_def, max_def]

theorem c4_degenerate_bounds_witness :
    (5 : ℚ) ≤ 5 ∧
    (normalizeVal 7 5 5 = 1/2 ∧ get_color_scale (some 7) 5 5 = [255, 255, 0, 202]) :=
  ⟨le_refl 5, c4_degenerate_bounds 7 5 5 (le_refl 5)⟩

/-- C5: a null value (for any bounds) gives the fixed gray sentinel of
get_color_scale, and a null or unrecognized class label gives the fixed
gray default of get_retail_color; both functions are total, so they never
raise. -/
theorem c5_null_sentinels :
    (∀ vmin vmax : ℚ, get_color_scale none vmin vmax = [200, 200, 200, 100]) ∧
    get_retail_color none = [156, 163, 175, 150] ∧
    (∀ s : String, s ≠ "High" → s ≠ "Medium" → s ≠ "Low" →
      get_retail_color (some s) = [156, 163, 175, 150]) := by
  refine ⟨fun vmin vmax => rfl, rfl, fun s h1 h2 h3 => ?_⟩
  simp [get_retail_color, retailColorTable, List.lookup,
    beq_eq_false_iff_ne.mpr h1, beq_eq_false_iff_ne.mpr h2, beq_eq_false_iff_ne.mpr h3]

theorem c5_null_sentinels_witness :
    get_color_scale none 0 10 = [200, 200, 200, 100] ∧
    get_retail_color (some "Unknown") = [156, 163, 175, 150] :=
  ⟨c5_null_sentinels.1 0 10,
   c5_null_sentinels.2.2 "Unknown" (by decide) (by decide) (by decide)⟩

/-- The alpha (fourth) channel of an RGBA list. -/
def alphaChannel (c : List ℤ) : ℤ := c.getD 3 0

theorem alphaChannel_color (v vmin vmax : ℚ) :
    alphaChannel (get_color_scale (some v) vmin vmax) =
      alphaOf (clamp01 (normalizeVal v vmin vmax)) := by
  simp only [get_color_scale, rampRGB]
  split <;> rfl

theorem alphaOf_mono {a b : ℚ} (h0 : 0 ≤ a) (h : a ≤ b) : alphaOf a ≤ alphaOf b := by
  unfold alphaOf
  rw [pyInt_eq_floor (by nlinarith), pyInt_eq_floor (by nlinarith)]
  exact Int.floor_le_floor (by nlinarith)

theorem alphaOf_bounds {n : ℚ} (h0 : 0 ≤ n) (h1 : n ≤ 1) :
    150 ≤ alphaOf n ∧ alphaOf n ≤ 255 := by
  unfold alphaOf
  rw [pyInt_eq_floor (by nlinarith)]
  constructor
  · exact Int.le_floor.mpr (by push_cast; nlinarith)
  · have h2 : (150 : ℚ) + n * 105 ≤ 255 := by nlinarith
    calc Int.floor ((150 : ℚ) + n * 105) ≤ Int.floor (255 : ℚ) := Int.floor_le_floor h2
    _ = 255 := by norm_num

/-- C8: for non-null inputs sharing the same bounds, the alpha channel of
the continuous colorizer is monotone in the value (a lower value never gets
a higher alpha), and it always lies in the fixed band 150..255 (hence
within the documented rough band 120..255). -/
theorem c8_alpha_monotone (v1 v2 vmin vmax : ℚ) (h : v1 ≤ v2) :
    alphaChannel (get_color_scale (some v1) vmin vmax) ≤
      alphaChannel (get_color_scale (some v2) vmin vmax) ∧
    (∀ v : ℚ, 150 ≤ alphaChannel (get_color_scale (some v) vmin vmax) ∧
      alphaChannel (get_color_scale (some v) vmin vmax) ≤ 255) := by
  constructor
  · rw [alphaChannel_color, alphaChannel_color]
    exact alphaOf_mono (clamp01_nonneg _) (clamp01_mono (normalizeVal_mono vmin vmax h))
  · intro v
    rw [alphaChannel_color]
    exact alphaOf_bounds (clamp01_nonneg _) (clamp01_le_one _)

theorem c8_alpha_monotone_witness :
    alphaChannel (get_color_scale (some 1) 0 10) ≤
      alphaChannel (get_color_scale (some 2) 0 10) ∧
    150 ≤ alphaChannel (get_color_scale (some 5) 0 10) :=
  ⟨(c8_alpha_monotone 1 2 0 10 (by norm_num)).1,
   ((c8_alpha_monotone 1 2 0 10 (by norm_num)).2 5).1⟩

/-- One grid feature: its categorical attributes as an association list
(a missing or NaN cell is `none`) and its numeric retail_score
(NaN modelled as `none`). -/
structure Feature where
  gid : Nat
  stringAttrs : List (String × Option String)
  retail_score : Option ℚ
deriving DecidableEq

/-- A dataset: the schema (the GeoDataFrame columns) and the ordered rows. -/
structure Dataset where
  schema : List String
  features : List Feature
deriving DecidableEq

/-- Categorical cell lookup: `none` both for an absent column and a null cell. -/
def getAttr (f : Feature) (a : String) : Option String :=
  match f.stringAttrs.lookup a with
  | some v => v
  | none => none

/-- Embeds the pandas equality selection `gdf[gdf[col] == val]`; a null
cell compares unequal to every value, so it is dropped. -/
def filterEq (d : Dataset) (attr sel : String) : Dataset :=
  { d with features := d.features.filter (fun f => getAttr f attr == some sel) }

/-- Embeds one guarded sidebar filter block (src/app.py lines 133-151): the
block only runs when the column is present in the schema, and the selectbox
default `All` applies no narrowing. -/
def filterStep (d : Dataset) (attr : String) (selected : String) : Dataset :=
  if attr ∈ d.schema then
    if selected ≠ "All" then filterEq d attr selected else d
  else d

/-- Embeds the land-use column detection (src/app.py lines 120-125). -/
def landuseCol (d : Dataset) : Option String :=
  if "Keterangan" ∈ d.schema then some "Keterangan"
  else if "KELAS_2" ∈ d.schema then some "KELAS_2"
  else none

/-- Embeds the pandas column minimum `gdf[col].min()` (NaN values skipped);
`none` when no non-null value exists. -/
def scoreMin (d : Dataset) : Option ℚ :=
  (d.features.filterMap (fun f => f.retail_score)).min?

/-- Embeds the minimum-score selection (src/app.py line 164):
`gdf[gdf[col] >= t]`; a NaN score satisfies no comparison, so it is
dropped. -/
def scoreFilter (d : Dataset) (t : ℚ) : Dataset :=
  { d with features := d.features.filter (fun f =>
      match f.retail_score with
      | some s => decide (t ≤ s)
      | none => false) }

/-- The three categorical sidebar filters at their default selection `All`
(the first option of every selectbox, src/app.py lines 133-151). -/
def defaultCategorical (d : Dataset) : Dataset :=
  let d1 := filterStep d "retail_class" "All"
  let d2 := filterStep d1 "flood_class" "All"
  match landuseCol d2 with
  | some c => filterStep d2 c "All"
  | none => d2

/-- The whole filter section at its default widget values: every selectbox
at `All` and the score slider at the column minimum (src/app.py lines
130-164).  When every score is NaN the slider threshold is NaN itself and
the comparison at line 164 holds for no row, leaving no features. -/
def defaultFilter (d : Dataset) : Dataset :=
  let d3 := defaultCategorical d
  if "retail_score" ∈ d3.schema then
    match scoreMin d3 with
    | some m => scoreFilter d3 m
    | none => { d3 with features := [] }
  else d3

/-- The default filter as the spec words it, for comparison: select the
high-potential label on the primary scoring attribute and the low-risk
label on the secondary risk attribute, each when present. -/
def specDefaultFilter (d : Dataset) : Dataset :=
  let d1 := if "retail_class" ∈ d.schema then filterEq d "retail_class" "High" else d
  if "flood_class" ∈ d1.schema then filterEq d1 "flood_class" "Low" else d1

/-- Embeds the categorical coloring branch (src/app.py lines 229-231):
drop the rows whose retail_class is null, then compute each remaining
row's fill color with get_retail_color. -/
def renderCategorical (d : Dataset) : List (Feature × List ℤ) :=
  (d.features.filter (fun f => (getAttr f "retail_class").isSome)).map
    (fun f => (f, get_retail_color (getAttr f "retail_class")))

theorem filterStep_all (d : Dataset) (attr : String) :
    filterStep d attr "All" = d := by
  unfold filterStep
  split <;> simp

theorem defaultCategorical_eq (d : Dataset) : defaultCategorical d = d := by
  unfold defaultCategorical
  simp only [filterStep_all]
  cases landuseCol d <;> simp [filterStep_all]

/-- C6: a filter predicate whose attribute is absent from the schema is the
identity on the dataset — the guarded block is skipped, with no error. -/
theorem c6_absent_attr_identity (d : Dataset) (attr sel : String)
    (h : attr ∉ d.schema) : filterStep d attr sel = d := if_neg h

theorem c6_absent_attr_identity_witness :
    "region" ∉ (Dataset.mk ["retail_class"] []).schema ∧
    filterStep (Dataset.mk ["retail_class"] []) "region" "X" =
      Dataset.mk ["retail_class"] [] :=
  ⟨by decide, c6_absent_attr_identity (Dataset.mk ["retail_class"] []) "region" "X"
    (by decide)⟩

/-- A two-feature dataset separating the code's default filter from the
default the spec claims. -/
def d7 : Dataset :=
  { schema := ["retail_class", "flood_class", "retail_score"],
    features :=
      [ { gid := 1,
          stringAttrs := [("retail_class", some "High"), ("flood_class", some "Low")],
          retail_score := some 1 },
        { gid := 2,
          stringAttrs := [("retail_class", some "Medium"), ("flood_class", some "High")],
          retail_score := some 2 } ] }

/-- C7 as stated is false on the code: with no caller override every
selectbox defaults to `All` and the slider to the column minimum, so the
default filter keeps both features of d7, while the claimed
high-potential/low-risk default would keep only the first. -/
theorem c7_counterexample :
    defaultFilter d7 = d7 ∧ specDefaultFilter d7 ≠ d7 ∧
    (specDefaultFilter d7).features.length = 1 := by
  decide

/-- C7 (amended): when the caller does not override, every categorical
filter defaults to the selection `All`, so the default categorical
predicate set is the identity on every dataset — it selects all features,
not the high-potential/low-risk subset; the only default narrowing is the
score slider at the column minimum. -/
theorem c7_default_is_all (d : Dataset) : defaultCategorical d = d :=
  defaultCategorical_eq d

/-- A dataset with one null retail_class row and one row carrying an
unrecognized label. -/
def d9 : Dataset :=
  { schema := ["retail_class"],
    features :=
      [ { gid := 1, stringAttrs := [("retail_class", none)], retail_score := none },
        { gid := 2, stringAttrs := [("retail_class", some "Unknown")], retail_score := none } ] }

/-- C9 as stated is false on the code: a rendered feature whose
retail_class is the non-null but unrecognized label Unknown survives the
dropna and receives exactly the gray tuple that is also the null sentinel
of get_retail_color. -/
theorem c9_counterexample :
    (renderCategorical d9).map Prod.snd = [[156, 163, 175, 150]] ∧
    get_retail_color none = [156, 163, 175, 150] := by
  decide

/-- C9 (amended): the categorical branch drops every feature whose
retail_class is null before computing fill colors, so every rendered
feature has a non-null retail_class and its color is get_retail_color of
that non-null label — the colorizer is never invoked on a null value,
though an unrecognized non-null label may still receive the default
gray. -/
theorem c9_drop_null_class (d : Dataset) (f : Feature) (c : List ℤ)
    (h : (f, c) ∈ renderCategorical d) :
    (getAttr f "retail_class").isSome ∧
    c = get_retail_color (getAttr f "retail_class") := by
  unfold renderCategorical at h
  simp only [List.mem_map, List.mem_filter] at h
  obtain ⟨g, ⟨hg, hsome⟩, heq⟩ := h
  cases heq
  exact ⟨hsome, rfl⟩

theorem c9_drop_null_class_witness :
    (Feature.mk 2 [("retail_class", some "Unknown")] none, [156, 163, 175, 150]) ∈
      renderCategorical d9 ∧
    (getAttr (Feature.mk 2 [("retail_class", some "Unknown")] none) "retail_class").isSome ∧
    [156, 163, 175, 150] =
      get_retail_color (getAttr (Feature.mk 2 [("retail_class", some "Unknown")] none)
        "retail_class") :=
  ⟨by decide,
   c9_drop_null_class d9 (Feature.mk 2 [("retail_class", some "Unknown")] none)
     [156, 163, 175, 150] (by decide)⟩

/-- C10: the minimum-score filter keeps only features whose retail_score is
a non-null value at or above the threshold, for every threshold (so in
particular at the default threshold, the column minimum); and the whole
default filter pipeline never passes a null-score feature through when the
retail_score column is present. -/
theorem c10_score_filter_drops_null :
    (∀ (d : Dataset) (t : ℚ) (f : Feature), f ∈ (scoreFilter d t).features →
      f.retail_score ≠ none ∧ ∃ s, f.retail_score = some s ∧ t ≤ s) ∧
    (∀ (d : Dataset) (f : Feature), "retail_score" ∈ d.schema →
      f ∈ (defaultFilter d).features → f.retail_score ≠ none) := by
  have hcore : ∀ (d : Dataset) (t : ℚ) (f : Feature), f ∈ (scoreFilter d t).features →
      f.retail_score ≠ none ∧ ∃ s, f.retail_score = some s ∧ t ≤ s := by
    intro d t f hf
    simp only [scoreFilter, List.mem_filter] at hf
    obtain ⟨-, hpred⟩ := hf
    cases hs : f.retail_score with
    | none => rw [hs] at hpred; exact absurd hpred (by simp)
    | some s =>
        rw [hs] at hpred
        exact ⟨by simp [hs], s, rfl, of_decide_eq_true hpred⟩
  refine ⟨hcore, fun d f hcol hf => ?_⟩
  unfold defaultFilter at hf
  rw [defaultCategorical_eq] at hf
  rw [if_pos hcol] at hf
  cases hm : scoreMin d with
  | none => rw [hm] at hf; exact absurd hf (by simp)
  | some m =>
      rw [hm] at hf
      exact (hcore d m f hf).1

theorem c10_score_filter_drops_null_witness :
    (Feature.mk 2 [("retail_class", some "Medium"), ("flood_class", some "High")]
        (some 2)) ∈ (scoreFilter d7 1).features ∧
    (Feature.mk 2 [("retail_class", some "Medium"), ("flood_class", some "High")]
        (some 2)).retail_score ≠ none :=
  ⟨by decide,
   (c10_score_filter_drops_null.1 d7 1
     (Feature.mk 2 [("retail_class", some "Medium"), ("flood_class", some "High")]
       (some 2)) (by decide)).1⟩

/-- Consecutive edges of a closed polygon ring: each vertex paired with its
successor, the last wrapping to the first. -/
def ringEdges (ps : List (ℚ × ℚ)) : List ((ℚ × ℚ) × (ℚ × ℚ)) :=
  match ps with
  | [] => []
  | p :: rest => List.zip (p :: rest) (rest ++ [p])

/-- Twice the signed shoelace area of a polygon ring. -/
def polyArea2 (ps : List (ℚ × ℚ)) : ℚ :=
  ((ringEdges ps).map (fun e => e.1.1 * e.2.2 - e.2.1 * e.1.2)).sum

/-- The area-weighted polygon centroid, the standard formula computed by
the geometry library call `gdf.geometry.centroid` in `load_grid_data`
(src/app.py lines 27-28), which is what the code stores as the feature's
anchor (lon, lat). -/
def centroid (ps : List (ℚ × ℚ)) : ℚ × ℚ :=
  (((ringEdges ps).map (fun e => (e.1.1 + e.2.1) * (e.1.1 * e.2.2 - e.2.1 * e.1.2))).sum
      / (3 * polyArea2 ps),
   ((ringEdges ps).map (fun e => (e.1.2 + e.2.2) * (e.1.1 * e.2.2 - e.2.1 * e.1.2))).sum
      / (3 * polyArea2 ps))

/-- One step of the crossing-number containment test: does the horizontal
ray from q to the right cross this edge? -/
def crossesRay (q : ℚ × ℚ) (e : (ℚ × ℚ) × (ℚ × ℚ)) : Bool :=
  if (q.2 < e.1.2 ↔ q.2 < e.2.2) then false
  else if q.1 < e.1.1 + (e.2.1 - e.1.1) * (q.2 - e.1.2) / (e.2.2 - e.1.2) then true
  else false

/-- Modelled from the spec: point-in-polygon containment (the crossing
number test), the property the spec requires of anchor_point; the
repository contains no containment code of its own, it delegates all
geometry to the library. -/
def pointInPolygon (ps : List (ℚ × ℚ)) (q : ℚ × ℚ) : Bool :=
  ((ringEdges ps).countP (crossesRay q)) % 2 == 1

/-- A concave C-shaped test polygon (counterclockwise exterior ring):
a 4 x 3 rectangle with the notch 1 < x < 4, 1 < y < 2 removed. -/
def cShape : List (ℚ × ℚ) :=
  [(0,0), (4,0), (4,1), (1,1), (1,2), (4,2), (4,3), (0,3)]

/-- C2 fails on the code: `load_grid_data` stores the plain centroid as the
anchor point, and on the concave cShape polygon that centroid (11/6, 3/2)
falls in the notch, outside the polygon, while a genuinely interior point
at the same height, (1/2, 3/2), is inside.  The spec's point-in-polygon
requirement is the stated intent (its section 9 flags the centroid as a
latent defect), so this is a defect of the code, not of the claim. -/
theorem c2_centroid_outside :
    centroid cShape = (11/6, 3/2) ∧
    pointInPolygon cShape (centroid cShape) = false ∧
    pointInPolygon cShape (1/2, 3/2) = true := by
  have hc : centroid cShape = (11/6, 3/2) := by
    norm_num [centroid, polyArea2, ringEdges, cShape, List.zip_cons_cons]
  refine ⟨hc, ?_, ?_⟩
  · rw [hc]
    norm_num [pointInPolygon, ringEdges, cShape, List.zip_cons_cons, crossesRay,
      List.countP_cons]
  · norm_num [pointInPolygon, ringEdges, cShape, List.zip_cons_cons, crossesRay,
      List.countP_cons]
